import Mathlib

/-!
Verification development for the Open LISA SDK client core.

The development shallowly embeds the two source files that the claims
concern:

- Open_LISA_SDK/domain/protocol/client_protocol.py : the request/response
  dispatcher (class ClientProtocol).  Each public method is embedded as a
  pure function from its arguments and the incoming message stream to a
  Run record holding the messages sent, the outcome (returned value,
  raised exception, protocol violation, ...) and the unread remainder of
  the incoming stream.
- Open_LISA_SDK/__init__.py : the RS232 discovery loop of
  SDK.connect_through_RS232, embedded as a pure function over the list of
  candidate ports and a behavior function describing how each candidate
  reacts to the handshake probe.

The message framing layer (MessageProtocol) is abstracted as a list of
already-framed messages: send_msg appends to the sent list, receive_msg
pops the head of the incoming list.  Python bytes.decode and str.encode
are modelled by an explicit strict UTF-8 codec.  Latency logging calls
are pure observations and are omitted.
-/

namespace OpenLISA

/-- A framed message on the wire: UTF-8 text or raw binary bytes. -/
inductive Msg where
  | text (s : String)
  | binary (b : List Nat)
deriving DecidableEq

/-- Strict UTF-8 decoding of a byte list into characters, modelling the
Python bytes.decode method with the default utf-8 codec and strict error
handling: continuation bytes, overlong forms, surrogates and
out-of-range code points are rejected. -/
def utf8DecodeAux : List Nat → Option (List Char)
  | [] => some []
  | b :: rest =>
    if b < 128 then
      (utf8DecodeAux rest).map (fun cs => Char.ofNat b :: cs)
    else if b < 194 then
      none
    else if b < 224 then
      match rest with
      | c1 :: rest2 =>
        if 128 ≤ c1 ∧ c1 < 192 then
          (utf8DecodeAux rest2).map (fun cs => Char.ofNat ((b - 192) * 64 + (c1 - 128)) :: cs)
        else none
      | [] => none
    else if b < 240 then
      match rest with
      | c1 :: c2 :: rest2 =>
        if (128 ≤ c1 ∧ c1 < 192) ∧ (128 ≤ c2 ∧ c2 < 192) then
          let cp := (b - 224) * 4096 + (c1 - 128) * 64 + (c2 - 128)
          if cp < 2048 ∨ (55296 ≤ cp ∧ cp ≤ 57343) then none
          else (utf8DecodeAux rest2).map (fun cs => Char.ofNat cp :: cs)
        else none
      | _ => none
    else if b < 245 then
      match rest with
      | c1 :: c2 :: c3 :: rest2 =>
        if (128 ≤ c1 ∧ c1 < 192) ∧ (128 ≤ c2 ∧ c2 < 192) ∧ (128 ≤ c3 ∧ c3 < 192) then
          let cp := (b - 240) * 262144 + (c1 - 128) * 4096 + (c2 - 128) * 64 + (c3 - 128)
          if cp < 65536 ∨ 1114111 < cp then none
          else (utf8DecodeAux rest2).map (fun cs => Char.ofNat cp :: cs)
        else none
      | _ => none
    else none

/-- Strict UTF-8 decoding of a byte list to a string. -/
def utf8Decode (bs : List Nat) : Option String :=
  (utf8DecodeAux bs).map fun cs => String.mk cs

/-- UTF-8 encoding of a single character, modelling Python str.encode. -/
def utf8EncodeChar (c : Char) : List Nat :=
  let n := c.toNat
  if n < 128 then [n]
  else if n < 2048 then [192 + n / 64, 128 + n % 64]
  else if n < 65536 then [224 + n / 4096, 128 + (n / 64) % 64, 128 + n % 64]
  else [240 + n / 262144, 128 + (n / 4096) % 64, 128 + (n / 64) % 64, 128 + n % 64]

/-- UTF-8 encoding of a string. -/
def utf8Encode (s : String) : List Nat :=
  (s.data.map utf8EncodeChar).flatten

/-- Result of one receive_msg call expecting text: the stream may be
exhausted (transport failure), the head bytes may fail UTF-8 decoding,
or a text message is obtained together with the remaining stream. -/
inductive RecvRes where
  | closed
  | badUtf8
  | got (s : String) (rest : List Msg)

/-- Models MessageProtocol.receive_msg with decode=True: pops the head
message and yields its text. -/
def recv1 : List Msg → RecvRes
  | [] => .closed
  | .text s :: rest => .got s rest
  | .binary b :: rest =>
    match utf8Decode b with
    | some s => .got s rest
    | none => .badUtf8

/-- Models MessageProtocol.receive_msg with decode=False: pops the head
message and yields its raw bytes. -/
def recvRaw : List Msg → Option (List Nat × List Msg)
  | [] => none
  | .text s :: rest => some (utf8Encode s, rest)
  | .binary b :: rest => some (b, rest)

/-- Constant from client_protocol.py. -/
def SUCCESS_RESPONSE : String := "OK"

/-- Constant from client_protocol.py. -/
def ERROR_RESPONSE : String := "ERROR"

/-- Command name constant from client_protocol.py. -/
def COMMAND_DISCONNECT : String := "DISCONNECT"

/-- Command name constant from client_protocol.py. -/
def COMMAND_GET_INSTRUMENTS : String := "GET_INSTRUMENTS"

/-- Command name constant from client_protocol.py. -/
def COMMAND_GET_INSTRUMENT : String := "GET_INSTRUMENT"

/-- Command name constant from client_protocol.py. -/
def COMMAND_CREATE_INSTRUMENT : String := "CREATE_INSTRUMENT"

/-- Command name constant from client_protocol.py. -/
def COMMAND_UPDATE_INSTRUMENT : String := "UPDATE_INSTRUMENT"

/-- Command name constant from client_protocol.py. -/
def COMMAND_DELETE_INSTRUMENT : String := "DELETE_INSTRUMENT"

/-- Command name constant from client_protocol.py. -/
def COMMAND_GET_INSTRUMENT_COMMANDS : String := "GET_INSTRUMENT_COMMANDS"

/-- Command name constant from client_protocol.py. -/
def COMMAND_VALIDATE_COMMAND : String := "VALIDATE_COMMAND"

/-- Command name constant from client_protocol.py. -/
def COMMAND_SEND_COMMAND : String := "SEND_COMMAND"

/-- Command name constant from client_protocol.py. -/
def COMMAND_GET_FILE : String := "GET_FILE"

/-- Command name constant from client_protocol.py. -/
def COMMAND_SEND_FILE : String := "SEND_FILE"

/-- Command name constant from client_protocol.py. -/
def COMMAND_EXECUTE_BASH : String := "EXECUTE_BASH"

/-- Command name constant from client_protocol.py. -/
def COMMAND_RESET_DATABASES : String := "RESET_DATABASES"

/-- Message of the Exception raised by ClientProtocol.__is_valid_response
for an unknown response type, per its format string. -/
def protoMsg (response : String) : String :=
  "unknown response type: \x27" ++ response ++ "\x27"

/-- Embeds ClientProtocol.__is_valid_response: returns true for the
success token, false for the error token, and raises (models the raise
as the error branch of Except) for anything else. -/
def is_valid_response (response : String) : Except String Bool :=
  if response = SUCCESS_RESPONSE then .ok true
  else if response = ERROR_RESPONSE then .ok false
  else .error (protoMsg response)

/-- A Python value passed as an instrument id: either a string or an
integer.  The dispatcher converts it with str before sending. -/
inductive PyVal where
  | pyStr (s : String)
  | pyInt (n : Int)
deriving DecidableEq

/-- Models the Python builtin str applied to an id value. -/
def pyStrOf : PyVal → String
  | .pyStr s => s
  | .pyInt n => toString n

/-- Models the Python builtin str applied to a boolean, as used for the
EXECUTE_BASH capture flags. -/
def pyStrBool (b : Bool) : String :=
  if b then "True" else "False"

/-- Exception classes raised by the dispatcher.  The classes live in the
exceptions package of the repository; each is modelled as carrying the
string passed to its constructor at the raise site. -/
inductive Exc where
  | openLISA
  | invalidCommand
  | invalidPath
deriving DecidableEq

/-- A value inside the dictionary returned by ClientProtocol.send_command:
a string from the parsed JSON, or raw bytes after base64 decoding. -/
inductive PyDictVal where
  | s (v : String)
  | bytes (b : List Nat)
deriving DecidableEq

/-- A value returned by a dispatcher operation. -/
inductive RVal where
  | str (s : String)
  | raw (b : List Nat)
  | unit
  | bash (status : String) (stdout stderr : Option String)
  | dict (d : List (String × PyDictVal))
deriving DecidableEq

/-- Outcome of one dispatcher operation: a returned value, a raised
typed exception carrying its constructor argument, the Exception raised
by __is_valid_response on an unknown status tag, a transport failure
(stream exhausted), a UTF-8 decode failure on receive, or a failure in a
Python library call (json.loads, dict access, base64). -/
inductive Outcome where
  | ok (v : RVal)
  | raised (e : Exc) (msg : String)
  | protocolViolation (msg : String)
  | transportErr
  | decodeErr
  | pyError
deriving DecidableEq

/-- One run of a dispatcher operation: the messages sent, the outcome,
and the unread remainder of the incoming stream. -/
structure Run where
  sent : List Msg
  outcome : Outcome
  rest : List Msg
deriving DecidableEq

/-- Embeds ClientProtocol.disconnect: sends the DISCONNECT command and
reads nothing. -/
def disconnect (incoming : List Msg) : Run :=
  ⟨[Msg.text COMMAND_DISCONNECT], .ok .unit, incoming⟩

/-- Embeds ClientProtocol.create_instrument_as_json_string.  The
new_instrument_json parameter stands for json.dumps(new_instrument).
Both the status tag and the result message are received before the tag
is validated, exactly as in the source. -/
def create_instrument_as_json_string (new_instrument_json : String) (incoming : List Msg) : Run :=
  let sent := [Msg.text COMMAND_CREATE_INSTRUMENT, Msg.text new_instrument_json]
  match recv1 incoming with
  | .closed => ⟨sent, .transportErr, []⟩
  | .badUtf8 => ⟨sent, .decodeErr, []⟩
  | .got response_type r1 =>
    match recv1 r1 with
    | .closed => ⟨sent, .transportErr, r1⟩
    | .badUtf8 => ⟨sent, .decodeErr, r1⟩
    | .got result_msg r2 =>
      match is_valid_response response_type with
      | .ok true => ⟨sent, .ok (.str result_msg), r2⟩
      | .ok false => ⟨sent, .raised .openLISA result_msg, r2⟩
      | .error m => ⟨sent, .protocolViolation m, r2⟩

/-- Embeds ClientProtocol.update_instrument_as_json_string.  The
updated_instrument_json parameter stands for
json.dumps(updated_instrument). -/
def update_instrument_as_json_string (id : PyVal) (updated_instrument_json : String)
    (incoming : List Msg) : Run :=
  let sent := [Msg.text COMMAND_UPDATE_INSTRUMENT, Msg.text (pyStrOf id),
               Msg.text updated_instrument_json]
  match recv1 incoming with
  | .closed => ⟨sent, .transportErr, []⟩
  | .badUtf8 => ⟨sent, .decodeErr, []⟩
  | .got response_type r1 =>
    match recv1 r1 with
    | .closed => ⟨sent, .transportErr, r1⟩
    | .badUtf8 => ⟨sent, .decodeErr, r1⟩
    | .got result_msg r2 =>
      match is_valid_response response_type with
      | .ok true => ⟨sent, .ok (.str result_msg), r2⟩
      | .ok false => ⟨sent, .raised .openLISA result_msg, r2⟩
      | .error m => ⟨sent, .protocolViolation m, r2⟩

/-- Embeds ClientProtocol.delete_instrument_as_json_string. -/
def delete_instrument_as_json_string (id : PyVal) (incoming : List Msg) : Run :=
  let sent := [Msg.text COMMAND_DELETE_INSTRUMENT, Msg.text (pyStrOf id)]
  match recv1 incoming with
  | .closed => ⟨sent, .transportErr, []⟩
  | .badUtf8 => ⟨sent, .decodeErr, []⟩
  | .got response_type r1 =>
    match recv1 r1 with
    | .closed => ⟨sent, .transportErr, r1⟩
    | .badUtf8 => ⟨sent, .decodeErr, r1⟩
    | .got result_msg r2 =>
      match is_valid_response response_type with
      | .ok true => ⟨sent, .ok (.str result_msg), r2⟩
      | .ok false => ⟨sent, .raised .openLISA result_msg, r2⟩
      | .error m => ⟨sent, .protocolViolation m, r2⟩

/-- Embeds ClientProtocol.get_instruments_as_json_string: sends the
command name and returns the single next message directly, with no
status tag validation, exactly as in the source. -/
def get_instruments_as_json_string (incoming : List Msg) : Run :=
  let sent := [Msg.text COMMAND_GET_INSTRUMENTS]
  match recv1 incoming with
  | .closed => ⟨sent, .transportErr, []⟩
  | .badUtf8 => ⟨sent, .decodeErr, []⟩
  | .got result r1 => ⟨sent, .ok (.str result), r1⟩

/-- Embeds ClientProtocol.get_instrument_as_json_string. -/
def get_instrument_as_json_string (id : PyVal) (incoming : List Msg) : Run :=
  let sent := [Msg.text COMMAND_GET_INSTRUMENT, Msg.text (pyStrOf id)]
  match recv1 incoming with
  | .closed => ⟨sent, .transportErr, []⟩
  | .badUtf8 => ⟨sent, .decodeErr, []⟩
  | .got response_type r1 =>
    match recv1 r1 with
    | .closed => ⟨sent, .transportErr, r1⟩
    | .badUtf8 => ⟨sent, .decodeErr, r1⟩
    | .got result_msg r2 =>
      match is_valid_response response_type with
      | .ok true => ⟨sent, .ok (.str result_msg), r2⟩
      | .ok false => ⟨sent, .raised .openLISA result_msg, r2⟩
      | .error m => ⟨sent, .protocolViolation m, r2⟩

/-- Embeds ClientProtocol.get_instrument_commands_as_json_string. -/
def get_instrument_commands_as_json_string (id : PyVal) (incoming : List Msg) : Run :=
  let sent := [Msg.text COMMAND_GET_INSTRUMENT_COMMANDS, Msg.text (pyStrOf id)]
  match recv1 incoming with
  | .closed => ⟨sent, .transportErr, []⟩
  | .badUtf8 => ⟨sent, .decodeErr, []⟩
  | .got response_type r1 =>
    match recv1 r1 with
    | .closed => ⟨sent, .transportErr, r1⟩
    | .badUtf8 => ⟨sent, .decodeErr, r1⟩
    | .got result_msg r2 =>
      match is_valid_response response_type with
      | .ok true => ⟨sent, .ok (.str result_msg), r2⟩
      | .ok false => ⟨sent, .raised .openLISA result_msg, r2⟩
      | .error m => ⟨sent, .protocolViolation m, r2⟩

/-- Embeds ClientProtocol.validate_command: sends the command name, the
id converted with str, and the command text; validates the status tag
right after receiving it; on success returns with no further read; on
the error token reads one more message and raises
InvalidCommandException with the formatted message of the source. -/
def validate_command (id : PyVal) (command : String) (incoming : List Msg) : Run :=
  let sent := [Msg.text COMMAND_VALIDATE_COMMAND, Msg.text (pyStrOf id), Msg.text command]
  match recv1 incoming with
  | .closed => ⟨sent, .transportErr, []⟩
  | .badUtf8 => ⟨sent, .decodeErr, []⟩
  | .got response_type r1 =>
    match is_valid_response response_type with
    | .error m => ⟨sent, .protocolViolation m, r1⟩
    | .ok true => ⟨sent, .ok .unit, r1⟩
    | .ok false =>
      match recv1 r1 with
      | .closed => ⟨sent, .transportErr, r1⟩
      | .badUtf8 => ⟨sent, .decodeErr, r1⟩
      | .got err r2 =>
        ⟨sent, .raised .invalidCommand
          ("command \x27" ++ command ++ "\x27 is not valid: " ++ err), r2⟩

/-- Embeds ClientProtocol.send_command_and_result_as_json_string: on the
success token the received payload is returned as is; on the error token
one more message is read and InvalidCommandException is raised with the
formatted message of the source. -/
def send_command_and_result_as_json_string (id : PyVal) (command : String)
    (incoming : List Msg) : Run :=
  let sent := [Msg.text COMMAND_SEND_COMMAND, Msg.text (pyStrOf id), Msg.text command]
  match recv1 incoming with
  | .closed => ⟨sent, .transportErr, []⟩
  | .badUtf8 => ⟨sent, .decodeErr, []⟩
  | .got response_type r1 =>
    match is_valid_response response_type with
    | .error m => ⟨sent, .protocolViolation m, r1⟩
    | .ok true =>
      match recv1 r1 with
      | .closed => ⟨sent, .transportErr, r1⟩
      | .badUtf8 => ⟨sent, .decodeErr, r1⟩
      | .got payload r2 => ⟨sent, .ok (.str payload), r2⟩
    | .ok false =>
      match recv1 r1 with
      | .closed => ⟨sent, .transportErr, r1⟩
      | .badUtf8 => ⟨sent, .decodeErr, r1⟩
      | .got err r2 =>
        ⟨sent, .raised .invalidCommand
          ("command \x27" ++ command ++ "\x27 for instrument " ++ pyStrOf id ++
           " is not valid: " ++ err), r2⟩

/-- Embeds ClientProtocol.send_file: sends the command name, the target
name as text, and the file bytes as a binary message; on success returns
the status string itself; on the error token reads one more message and
raises InvalidPathException with it. -/
def send_file (file_bytes : List Nat) (file_target_name : String) (incoming : List Msg) : Run :=
  let sent := [Msg.text COMMAND_SEND_FILE, Msg.text file_target_name, Msg.binary file_bytes]
  match recv1 incoming with
  | .closed => ⟨sent, .transportErr, []⟩
  | .badUtf8 => ⟨sent, .decodeErr, []⟩
  | .got response r1 =>
    match is_valid_response response with
    | .error m => ⟨sent, .protocolViolation m, r1⟩
    | .ok false =>
      match recv1 r1 with
      | .closed => ⟨sent, .transportErr, r1⟩
      | .badUtf8 => ⟨sent, .decodeErr, r1⟩
      | .got err r2 => ⟨sent, .raised .invalidPath err, r2⟩
    | .ok true => ⟨sent, .ok (.str response), r1⟩

/-- Embeds ClientProtocol.get_file: on the error token reads the error
message and raises OpenLISAException with it; on success reads the file
payload raw. -/
def get_file (remote_file_name : String) (incoming : List Msg) : Run :=
  let sent := [Msg.text COMMAND_GET_FILE, Msg.text remote_file_name]
  match recv1 incoming with
  | .closed => ⟨sent, .transportErr, []⟩
  | .badUtf8 => ⟨sent, .decodeErr, []⟩
  | .got response_type r1 =>
    match is_valid_response response_type with
    | .error m => ⟨sent, .protocolViolation m, r1⟩
    | .ok false =>
      match recv1 r1 with
      | .closed => ⟨sent, .transportErr, r1⟩
      | .badUtf8 => ⟨sent, .decodeErr, r1⟩
      | .got error_message r2 => ⟨sent, .raised .openLISA error_message, r2⟩
    | .ok true =>
      match recvRaw r1 with
      | none => ⟨sent, .transportErr, r1⟩
      | some (file_bytes, r2) => ⟨sent, .ok (.raw file_bytes), r2⟩

/-- Embeds ClientProtocol.execute_bash_command: sends the command name,
the command text, and the two capture flags serialized with str; reads
the status code, then the stdout message only if capture_stdout, then
the stderr message only if capture_stderr. -/
def execute_bash_command (command : String) (capture_stdout capture_stderr : Bool)
    (incoming : List Msg) : Run :=
  let sent := [Msg.text COMMAND_EXECUTE_BASH, Msg.text command,
               Msg.text (pyStrBool capture_stdout), Msg.text (pyStrBool capture_stderr)]
  match recv1 incoming with
  | .closed => ⟨sent, .transportErr, []⟩
  | .badUtf8 => ⟨sent, .decodeErr, []⟩
  | .got status_code r1 =>
    if capture_stdout then
      match recv1 r1 with
      | .closed => ⟨sent, .transportErr, r1⟩
      | .badUtf8 => ⟨sent, .decodeErr, r1⟩
      | .got stdout r2 =>
        if capture_stderr then
          match recv1 r2 with
          | .closed => ⟨sent, .transportErr, r2⟩
          | .badUtf8 => ⟨sent, .decodeErr, r2⟩
          | .got stderr r3 => ⟨sent, .ok (.bash status_code (some stdout) (some stderr)), r3⟩
        else ⟨sent, .ok (.bash status_code (some stdout) none), r2⟩
    else
      if capture_stderr then
        match recv1 r1 with
        | .closed => ⟨sent, .transportErr, r1⟩
        | .badUtf8 => ⟨sent, .decodeErr, r1⟩
        | .got stderr r2 => ⟨sent, .ok (.bash status_code none (some stderr)), r2⟩
      else ⟨sent, .ok (.bash status_code none none), r1⟩

/-- Embeds ClientProtocol.reset_databases: sends the command name and
returns the single next message directly, with no status tag
validation, exactly as in the source. -/
def reset_databases (incoming : List Msg) : Run :=
  let sent := [Msg.text COMMAND_RESET_DATABASES]
  match recv1 incoming with
  | .closed => ⟨sent, .transportErr, []⟩
  | .badUtf8 => ⟨sent, .decodeErr, []⟩
  | .got result r1 => ⟨sent, .ok (.str result), r1⟩

/-- Value of one base64 alphabet character, as in the standard alphabet
used by the Python base64.b64decode function. -/
def b64Val (c : Char) : Option Nat :=
  let n := c.toNat
  if 65 ≤ n ∧ n ≤ 90 then some (n - 65)
  else if 97 ≤ n ∧ n ≤ 122 then some (n - 97 + 26)
  else if 48 ≤ n ∧ n ≤ 57 then some (n - 48 + 52)
  else if n = 43 then some 62
  else if n = 47 then some 63
  else none

/-- Decodes base64 text four characters at a time, handling the one and
two byte padded tails, modelling Python base64.b64decode on properly
padded input. -/
def b64decodeAux : List Char → Option (List Nat)
  | [] => some []
  | c1 :: c2 :: c3 :: c4 :: rest =>
    match b64Val c1, b64Val c2 with
    | some v1, some v2 =>
      if c3 = '=' then
        if c4 = '=' ∧ rest = [] then some [v1 * 4 + v2 / 16] else none
      else
        match b64Val c3 with
        | some v3 =>
          if c4 = '=' then
            if rest = [] then some [v1 * 4 + v2 / 16, (v2 % 16) * 16 + v3 / 4] else none
          else
            match b64Val c4 with
            | some v4 =>
              match b64decodeAux rest with
              | some bs =>
                some ([v1 * 4 + v2 / 16, (v2 % 16) * 16 + v3 / 4, (v3 % 4) * 64 + v4] ++ bs)
              | none => none
            | none => none
        | none => none
    | _, _ => none
  | _ => none

/-- Models Python base64.b64decode from text to raw bytes. -/
def b64decode (s : String) : Option (List Nat) :=
  b64decodeAux s.data

/-- Drops leading JSON whitespace. -/
def skipWs : List Char → List Char
  | c :: rest =>
    if c = ' ' ∨ c = '\n' ∨ c = '\t' ∨ c = '\r' then skipWs rest else c :: rest
  | [] => []

/-- Reads the body of a JSON string literal after its opening quote, up
to the closing quote.  Escape sequences are not needed by the payloads
this development evaluates and make the input unparseable here. -/
def readStrBody : List Char → List Char → Option (String × List Char)
  | [], _ => none
  | c :: rest, acc =>
    if c = '"' then some (String.mk acc.reverse, rest)
    else if c = '\\' then none
    else readStrBody rest (c :: acc)

/-- Reads one JSON string literal including its opening quote. -/
def readStrLit : List Char → Option (String × List Char)
  | '"' :: rest => readStrBody rest []
  | _ => none

/-- Reads a comma separated sequence of string key and string value
pairs.  The fuel argument bounds the recursion by the input length. -/
def readPairs (fuel : Nat) (cs : List Char) : Option (List (String × String) × List Char) :=
  match fuel with
  | 0 => none
  | fuel + 1 =>
    match readStrLit (skipWs cs) with
    | none => none
    | some (k, r1) =>
      match skipWs r1 with
      | ':' :: r2 =>
        match readStrLit (skipWs r2) with
        | none => none
        | some (v, r3) =>
          match skipWs r3 with
          | ',' :: r4 =>
            match readPairs fuel r4 with
            | some (ps, r5) => some ((k, v) :: ps, r5)
            | none => none
          | r4 => some ([(k, v)], r4)
      | _ => none

/-- Models Python json.loads restricted to the flat objects with string
keys and string values that the SEND_COMMAND result payload carries. -/
def pyJsonLoads (s : String) : Option (List (String × String)) :=
  match skipWs s.data with
  | '\x7b' :: rest =>
    match skipWs rest with
    | '\x7d' :: r2 => if skipWs r2 = [] then some [] else none
    | _ =>
      match readPairs (rest.length + 1) rest with
      | some (ps, r2) =>
        match skipWs r2 with
        | '\x7d' :: r3 => if skipWs r3 = [] then some ps else none
        | _ => none
      | none => none
  | _ => none

/-- Replaces the value entry of the parsed dictionary by decoded bytes,
modelling the in-place dictionary mutation in ClientProtocol.send_command. -/
def setValueBytes (d : List (String × String)) (bs : List Nat) : List (String × PyDictVal) :=
  d.map fun kv => if kv.1 = "value" then (kv.1, PyDictVal.bytes bs) else (kv.1, PyDictVal.s kv.2)

/-- Views a parsed dictionary as string valued entries unchanged. -/
def asStrDict (d : List (String × String)) : List (String × PyDictVal) :=
  d.map fun kv => (kv.1, PyDictVal.s kv.2)

/-- Embeds ClientProtocol.send_command: calls the core json string
operation, parses the returned JSON, and only when the type entry is
BYTES decodes the value entry from base64 into raw bytes.  Failures of
the Python library calls map to the pyError outcome. -/
def send_command (id : PyVal) (command : String) (incoming : List Msg) : Run :=
  let core := send_command_and_result_as_json_string id command incoming
  match core.outcome with
  | .ok (.str json_str) =>
    match pyJsonLoads json_str with
    | none => ⟨core.sent, .pyError, core.rest⟩
    | some d =>
      match d.lookup "type" with
      | none => ⟨core.sent, .pyError, core.rest⟩
      | some ty =>
        if ty = "BYTES" then
          match d.lookup "value" with
          | none => ⟨core.sent, .pyError, core.rest⟩
          | some v =>
            match b64decode v with
            | none => ⟨core.sent, .pyError, core.rest⟩
            | some bs => ⟨core.sent, .ok (.dict (setValueBytes d bs)), core.rest⟩
        else ⟨core.sent, .ok (.dict (asStrDict d)), core.rest⟩
  | _ => core

/-- Handshake constant from SDK.connect_through_RS232. -/
def RS232_HANDSHAKE_SERVER_RESPONSE : String := "LISA"

/-- Behavior of one candidate serial port under the handshake probe:
either some step of opening, configuring, writing the greeting or
reading raises serial.SerialException, or the bounded read returns the
given bytes, possibly empty on timeout. -/
inductive ProbeBehavior where
  | openFail
  | reply (bs : List Nat)
deriving DecidableEq

/-- Result of SDK.connect_through_RS232: a connection kept on the named
port, an uncaught UnicodeDecodeError raised while decoding the reply of
the named port, or CouldNotConnectToServerException. -/
inductive DiscoveryOutcome where
  | connected (port : String)
  | decodeError (port : String)
  | couldNotConnect
deriving DecidableEq

/-- The probe loop of SDK.connect_through_RS232 over the candidate list
paired with each candidate behavior.  Returns the outcome and the list
of candidates probed, in order.  serial.SerialException is caught and
the loop continues; a reply is accepted when it is non-empty and its
strict UTF-8 decoding equals the server greeting; a non-empty reply
that fails decoding raises an uncaught UnicodeDecodeError because only
serial.SerialException is caught in the loop. -/
def probeLoop : List (String × ProbeBehavior) → DiscoveryOutcome × List String
  | [] => (.couldNotConnect, [])
  | (p, b) :: rest =>
    match b with
    | .openFail => ((probeLoop rest).1, p :: (probeLoop rest).2)
    | .reply bs =>
      if 0 < bs.length then
        match utf8Decode bs with
        | none => (.decodeError p, [p])
        | some s =>
          if s = RS232_HANDSHAKE_SERVER_RESPONSE then (.connected p, [p])
          else ((probeLoop rest).1, p :: (probeLoop rest).2)
      else ((probeLoop rest).1, p :: (probeLoop rest).2)

/-- The candidate list of SDK.connect_through_RS232: the Python
condition is if not port, so both None and the empty string select the
detected device list, and any other explicit port yields a singleton. -/
def portsToTry : Option String → List String → List String
  | none, detected => detected
  | some p, detected => if p = "" then detected else [p]

/-- Embeds the discovery part of SDK.connect_through_RS232: builds the
candidate list from the optional explicit port and the detected
devices, then runs the probe loop, where the behavior function gives
each candidate reaction to the greeting probe. -/
def connect_through_RS232 (explicit_port : Option String) (detected : List String)
    (behavior : String → ProbeBehavior) : DiscoveryOutcome × List String :=
  probeLoop ((portsToTry explicit_port detected).map (fun p => (p, behavior p)))

/-- A candidate probe is benign when the loop swallows it and moves on:
every SerialException case, a timed out empty reply, or a reply that
decodes to something other than the server greeting. -/
def benignProbe : ProbeBehavior → Bool
  | .openFail => true
  | .reply bs =>
    bs.isEmpty ||
      ((utf8Decode bs).isSome && (utf8Decode bs != some RS232_HANDSHAKE_SERVER_RESPONSE))

/-- Helper: a benign prefix of candidates is walked through, and the
first candidate whose non-empty reply decodes to the server greeting
stops the probe loop; candidates after it are never probed. -/
theorem probeLoop_benign_then_success (l₁ : List (String × ProbeBehavior)) (p : String)
    (bs : List Nat) (l₂ : List (String × ProbeBehavior))
    (hben : ∀ x ∈ l₁, benignProbe x.2 = true)
    (hlen : 0 < bs.length)
    (hdec : utf8Decode bs = some RS232_HANDSHAKE_SERVER_RESPONSE) :
    probeLoop (l₁ ++ (p, ProbeBehavior.reply bs) :: l₂) =
      (DiscoveryOutcome.connected p, l₁.map Prod.fst ++ [p]) := by
  induction l₁ with
  | nil =>
    simp only [List.nil_append, List.map_nil, probeLoop]
    rw [if_pos hlen, hdec]
    simp
  | cons x t ih =>
    obtain ⟨q, b⟩ := x
    have hx : benignProbe b = true := hben (q, b) (by simp)
    have ht : ∀ y ∈ t, benignProbe y.2 = true := fun y hy => hben y (by simp [hy])
    have ihh := ih ht
    cases b with
    | openFail =>
      simp [probeLoop, List.append_eq, ihh]
    | reply bs2 =>
      cases bs2 with
      | nil =>
        simp [probeLoop, List.append_eq, ihh]
      | cons hd tl =>
        have hx2 : (utf8Decode (hd :: tl)).isSome = true ∧
            utf8Decode (hd :: tl) ≠ some RS232_HANDSHAKE_SERVER_RESPONSE := by
          simpa [benignProbe] using hx
        obtain ⟨hs, hneq⟩ := hx2
        obtain ⟨s, hsome⟩ := Option.isSome_iff_exists.mp hs
        have hsneq : s ≠ RS232_HANDSHAKE_SERVER_RESPONSE := by
          intro h
          exact hneq (by rw [hsome, h])
        simp [probeLoop, List.append_eq, hsome, hsneq, ihh, Nat.succ_pos]

/-- Helper: when every candidate probe is benign the loop walks the
whole list and no connection is kept. -/
theorem probeLoop_all_benign (l : List (String × ProbeBehavior))
    (hben : ∀ x ∈ l, benignProbe x.2 = true) :
    probeLoop l = (DiscoveryOutcome.couldNotConnect, l.map Prod.fst) := by
  induction l with
  | nil => rfl
  | cons x t ih =>
    obtain ⟨q, b⟩ := x
    have hx : benignProbe b = true := hben (q, b) (by simp)
    have ht : ∀ y ∈ t, benignProbe y.2 = true := fun y hy => hben y (by simp [hy])
    have ihh := ih ht
    cases b with
    | openFail =>
      simp [probeLoop, ihh]
    | reply bs2 =>
      cases bs2 with
      | nil =>
        simp [probeLoop, ihh]
      | cons hd tl =>
        have hx2 : (utf8Decode (hd :: tl)).isSome = true ∧
            utf8Decode (hd :: tl) ≠ some RS232_HANDSHAKE_SERVER_RESPONSE := by
          simpa [benignProbe] using hx
        obtain ⟨hs, hneq⟩ := hx2
        obtain ⟨s, hsome⟩ := Option.isSome_iff_exists.mp hs
        have hsneq : s ≠ RS232_HANDSHAKE_SERVER_RESPONSE := by
          intro h
          exact hneq (by rw [hsome, h])
        simp [probeLoop, hsome, hsneq, ihh, Nat.succ_pos]

/-- Claim C1: the status tag is accepted exactly when it is the literal
string OK, classified as failure exactly when it is the literal string
ERROR, and any other tag makes the dispatcher raise the unknown
response type Exception instead of returning a result. -/
theorem status_tag_classification (r : String) :
    (is_valid_response r = .ok true ↔ r = SUCCESS_RESPONSE) ∧
    (is_valid_response r = .ok false ↔ r = ERROR_RESPONSE) ∧
    (r ≠ SUCCESS_RESPONSE → r ≠ ERROR_RESPONSE → is_valid_response r = .error (protoMsg r)) ∧
    SUCCESS_RESPONSE = "OK" ∧ ERROR_RESPONSE = "ERROR" := by
  unfold is_valid_response
  by_cases h1 : r = SUCCESS_RESPONSE <;> by_cases h2 : r = ERROR_RESPONSE <;>
    simp_all [SUCCESS_RESPONSE, ERROR_RESPONSE]

/-- Witness for claim C1 at the concrete tag HM. -/
theorem status_tag_classification_witness :
    is_valid_response "HM" = .error (protoMsg "HM") :=
  (status_tag_classification "HM").2.2.1 (by decide) (by decide)

/-- Claim C2 counterexample: GET_INSTRUMENTS and RESET_DATABASES do not
receive or validate a status tag: with the non-token message BOGUS at
the head of the stream both return it as their payload instead of
raising the unknown response type Exception. -/
theorem get_instruments_no_status_validation :
    get_instruments_as_json_string [Msg.text "BOGUS"] =
      ⟨[Msg.text COMMAND_GET_INSTRUMENTS], .ok (.str "BOGUS"), []⟩ ∧
    reset_databases [Msg.text "BOGUS"] =
      ⟨[Msg.text COMMAND_RESET_DATABASES], .ok (.str "BOGUS"), []⟩ ∧
    (get_instruments_as_json_string [Msg.text "BOGUS"]).outcome ≠
      .protocolViolation (protoMsg "BOGUS") :=
  ⟨rfl, rfl, by decide⟩

/-- Claim C2 amended: every command except GET_INSTRUMENTS,
RESET_DATABASES, EXECUTE_BASH and DISCONNECT receives the status tag
and validates it, raising the unknown response type Exception on any
other tag; the five instrument CRUD commands read the result message
before validating, the other four validate before any payload read;
GET_INSTRUMENTS and RESET_DATABASES read exactly one message and
return it with no status tag validation. -/
theorem command_status_validation_table (tag d : String) (rest : List Msg)
    (h1 : tag ≠ SUCCESS_RESPONSE) (h2 : tag ≠ ERROR_RESPONSE) :
    (∀ body, create_instrument_as_json_string body (Msg.text tag :: Msg.text d :: rest) =
      ⟨[Msg.text COMMAND_CREATE_INSTRUMENT, Msg.text body],
        .protocolViolation (protoMsg tag), rest⟩) ∧
    (∀ id body, update_instrument_as_json_string id body (Msg.text tag :: Msg.text d :: rest) =
      ⟨[Msg.text COMMAND_UPDATE_INSTRUMENT, Msg.text (pyStrOf id), Msg.text body],
        .protocolViolation (protoMsg tag), rest⟩) ∧
    (∀ id, delete_instrument_as_json_string id (Msg.text tag :: Msg.text d :: rest) =
      ⟨[Msg.text COMMAND_DELETE_INSTRUMENT, Msg.text (pyStrOf id)],
        .protocolViolation (protoMsg tag), rest⟩) ∧
    (∀ id, get_instrument_as_json_string id (Msg.text tag :: Msg.text d :: rest) =
      ⟨[Msg.text COMMAND_GET_INSTRUMENT, Msg.text (pyStrOf id)],
        .protocolViolation (protoMsg tag), rest⟩) ∧
    (∀ id, get_instrument_commands_as_json_string id (Msg.text tag :: Msg.text d :: rest) =
      ⟨[Msg.text COMMAND_GET_INSTRUMENT_COMMANDS, Msg.text (pyStrOf id)],
        .protocolViolation (protoMsg tag), rest⟩) ∧
    (∀ id cmd, validate_command id cmd (Msg.text tag :: Msg.text d :: rest) =
      ⟨[Msg.text COMMAND_VALIDATE_COMMAND, Msg.text (pyStrOf id), Msg.text cmd],
        .protocolViolation (protoMsg tag), Msg.text d :: rest⟩) ∧
    (∀ id cmd, send_command_and_result_as_json_string id cmd
        (Msg.text tag :: Msg.text d :: rest) =
      ⟨[Msg.text COMMAND_SEND_COMMAND, Msg.text (pyStrOf id), Msg.text cmd],
        .protocolViolation (protoMsg tag), Msg.text d :: rest⟩) ∧
    (∀ fb name, send_file fb name (Msg.text tag :: Msg.text d :: rest) =
      ⟨[Msg.text COMMAND_SEND_FILE, Msg.text name, Msg.binary fb],
        .protocolViolation (protoMsg tag), Msg.text d :: rest⟩) ∧
    (∀ name, get_file name (Msg.text tag :: Msg.text d :: rest) =
      ⟨[Msg.text COMMAND_GET_FILE, Msg.text name],
        .protocolViolation (protoMsg tag), Msg.text d :: rest⟩) ∧
    get_instruments_as_json_string (Msg.text tag :: Msg.text d :: rest) =
      ⟨[Msg.text COMMAND_GET_INSTRUMENTS], .ok (.str tag), Msg.text d :: rest⟩ ∧
    reset_databases (Msg.text tag :: Msg.text d :: rest) =
      ⟨[Msg.text COMMAND_RESET_DATABASES], .ok (.str tag), Msg.text d :: rest⟩ := by
  refine ⟨fun body => ?_, fun id body => ?_, fun id => ?_, fun id => ?_, fun id => ?_,
    fun id cmd => ?_, fun id cmd => ?_, fun fb name => ?_, fun name => ?_, ?_, ?_⟩ <;>
    simp [create_instrument_as_json_string, update_instrument_as_json_string,
      delete_instrument_as_json_string, get_instrument_as_json_string,
      get_instrument_commands_as_json_string, validate_command,
      send_command_and_result_as_json_string, send_file, get_file,
      get_instruments_as_json_string, reset_databases, recv1, is_valid_response, h1, h2]

/-- Witness for claim C2 at the concrete tag HMM. -/
theorem command_status_validation_table_witness :
    create_instrument_as_json_string "B" [Msg.text "HMM", Msg.text "x"] =
      ⟨[Msg.text COMMAND_CREATE_INSTRUMENT, Msg.text "B"],
        .protocolViolation (protoMsg "HMM"), []⟩ ∧
    get_instruments_as_json_string [Msg.text "HMM", Msg.text "x"] =
      ⟨[Msg.text COMMAND_GET_INSTRUMENTS], .ok (.str "HMM"), [Msg.text "x"]⟩ :=
  ⟨(command_status_validation_table "HMM" "x" [] (by decide) (by decide)).1 "B",
   (command_status_validation_table "HMM" "x" []
      (by decide) (by decide)).2.2.2.2.2.2.2.2.2.1⟩

/-- Claim C3 counterexample: first, with the explicitly supplied empty
port the candidate set is the detected list, not the singleton of the
supplied port; second, when the unique candidate echoing the greeting
sits after a candidate whose non-empty reply is not valid UTF-8, the
loop raises the uncaught decode error at the earlier candidate and
never connects to the echoing one. -/
theorem rs232_discovery_claim_counterexample :
    connect_through_RS232 (some "") ["COM9"] (fun _ => ProbeBehavior.openFail) =
      (DiscoveryOutcome.couldNotConnect, ["COM9"]) ∧
    connect_through_RS232 none ["P0", "P1"]
        (fun p => if p = "P1" then ProbeBehavior.reply [76, 73, 83, 65]
                  else ProbeBehavior.reply [255, 255, 255, 255]) =
      (DiscoveryOutcome.decodeError "P0", ["P0"]) ∧
    DiscoveryOutcome.decodeError "P0" ≠ DiscoveryOutcome.connected "P1" :=
  ⟨by decide, by decide, by decide⟩

/-- Claim C3 amended: the candidate set is the singleton of the explicit
port when the caller supplies a non-empty one and the detected devices
otherwise; when every candidate before position k probes benignly
(open failure, silence, or a reply that decodes to a wrong greeting)
and candidate k echoes the greeting, discovery stops at candidate k,
keeps its connection, and probes exactly the candidates up to k. -/
theorem rs232_discovery_first_success (ep : Option String)
    (detected ports1 ports2 : List String) (pk : String) (bs : List Nat)
    (behavior : String → ProbeBehavior)
    (hports : portsToTry ep detected = ports1 ++ pk :: ports2)
    (hben : ∀ q ∈ ports1, benignProbe (behavior q) = true)
    (hbk : behavior pk = ProbeBehavior.reply bs)
    (hlen : 0 < bs.length)
    (hdec : utf8Decode bs = some RS232_HANDSHAKE_SERVER_RESPONSE) :
    connect_through_RS232 ep detected behavior =
      (DiscoveryOutcome.connected pk, ports1 ++ [pk]) ∧
    (∀ p, p ≠ "" → portsToTry (some p) detected = [p]) ∧
    portsToTry none detected = detected := by
  refine ⟨?_, fun p hp => by simp [portsToTry, hp], rfl⟩
  unfold connect_through_RS232
  rw [hports, List.map_append, List.map_cons, hbk]
  rw [probeLoop_benign_then_success (ports1.map (fun p => (p, behavior p))) pk bs
      (ports2.map (fun p => (p, behavior p)))
      (by
        intro x hx
        obtain ⟨q, hq, rfl⟩ := List.mem_map.mp hx
        exact hben q hq)
      hlen hdec]
  simp [List.map_map, Function.comp_def]

/-- Witness for claim C3: among three candidates only the second echoes
the greeting; discovery connects there and probes only the first two. -/
theorem rs232_discovery_first_success_witness :
    connect_through_RS232 none ["P0", "P1", "P2"]
        (fun p => if p = "P1" then ProbeBehavior.reply [76, 73, 83, 65]
                  else if p = "P0" then ProbeBehavior.openFail
                  else ProbeBehavior.reply [88]) =
      (DiscoveryOutcome.connected "P1", ["P0", "P1"]) :=
  (rs232_discovery_first_success none ["P0", "P1", "P2"] ["P0"] ["P2"] "P1"
      [76, 73, 83, 65]
      (fun p => if p = "P1" then ProbeBehavior.reply [76, 73, 83, 65]
                else if p = "P0" then ProbeBehavior.openFail
                else ProbeBehavior.reply [88])
      (by decide) (by decide) (by decide) (by decide) (by decide)).1

/-- Claim C4 counterexample: a candidate whose handshake reply is
non-empty but not valid UTF-8 makes the loop raise an uncaught decode
error, a failure other than CouldNotConnectToServerException, because
the loop catches only serial.SerialException. -/
theorem rs232_discovery_decode_error_propagates :
    connect_through_RS232 none ["P0"]
        (fun _ => ProbeBehavior.reply [255, 255, 255, 255]) =
      (DiscoveryOutcome.decodeError "P0", ["P0"]) ∧
    DiscoveryOutcome.decodeError "P0" ≠ DiscoveryOutcome.couldNotConnect :=
  ⟨by decide, by decide⟩

/-- Claim C4 amended: when every candidate probe fails benignly (a
SerialException while opening or handshaking, a silent timeout, or a
wrong reply that does decode), all candidates are probed, each failure
is swallowed, and the loop ends by raising
CouldNotConnectToServerException; a non-empty reply that fails UTF-8
decoding is the one per-candidate failure that propagates instead. -/
theorem rs232_discovery_all_benign_fails (ep : Option String) (detected : List String)
    (behavior : String → ProbeBehavior)
    (hben : ∀ q ∈ portsToTry ep detected, benignProbe (behavior q) = true) :
    connect_through_RS232 ep detected behavior =
      (DiscoveryOutcome.couldNotConnect, portsToTry ep detected) := by
  unfold connect_through_RS232
  rw [probeLoop_all_benign _
      (by
        intro x hx
        obtain ⟨q, hq, rfl⟩ := List.mem_map.mp hx
        exact hben q hq)]
  simp [List.map_map, Function.comp_def]

/-- Witness for claim C4: two silent candidates, both probed, discovery
fails with CouldNotConnectToServerException. -/
theorem rs232_discovery_all_benign_fails_witness :
    connect_through_RS232 none ["A", "B"] (fun _ => ProbeBehavior.reply []) =
      (DiscoveryOutcome.couldNotConnect, ["A", "B"]) :=
  rs232_discovery_all_benign_fails none ["A", "B"] (fun _ => ProbeBehavior.reply [])
    (by decide)

/-- Claim C5: the core dispatcher operation returns the received JSON
text unmodified for any payload, and the base64 decoding of a BYTES
typed value happens only in send_command, the layer above the core:
on the concrete BYTES payload it returns the dictionary whose value
entry holds the decoded bytes of hello. -/
theorem send_command_core_payload_unmodified :
    (∀ id cmd payload rest,
      send_command_and_result_as_json_string id cmd
          (Msg.text "OK" :: Msg.text payload :: rest) =
        ⟨[Msg.text COMMAND_SEND_COMMAND, Msg.text (pyStrOf id), Msg.text cmd],
          .ok (.str payload), rest⟩) ∧
    send_command (PyVal.pyStr "3") "c"
        [Msg.text "OK", Msg.text "\x7b\"type\": \"BYTES\", \"value\": \"aGVsbG8=\"\x7d"] =
      ⟨[Msg.text COMMAND_SEND_COMMAND, Msg.text "3", Msg.text "c"],
        .ok (.dict [("type", PyDictVal.s "BYTES"),
                    ("value", PyDictVal.bytes [104, 101, 108, 108, 111])]), []⟩ :=
  ⟨fun id cmd payload rest => rfl, by decide⟩

/-- Claim C6 counterexample: receiving ERROR then the detail string
raises InvalidCommandException whose message is the formatted string of
the source, which embeds but does not equal the server detail. -/
theorem validate_command_detail_counterexample :
    validate_command (PyVal.pyStr "3") "MEAS:VOLT?"
        [Msg.text "ERROR", Msg.text "unknown command"] =
      ⟨[Msg.text COMMAND_VALIDATE_COMMAND, Msg.text "3", Msg.text "MEAS:VOLT?"],
        .raised .invalidCommand "command \x27MEAS:VOLT?\x27 is not valid: unknown command",
        []⟩ ∧
    "command \x27MEAS:VOLT?\x27 is not valid: unknown command" ≠ "unknown command" :=
  ⟨rfl, by decide⟩

/-- Claim C6 amended: validate_command sends exactly the three text
messages VALIDATE_COMMAND, id, command in that order; on OK it returns
reading no further message; on ERROR it reads exactly one error detail
message and raises InvalidCommandException whose message embeds the
server detail in the form command quoted-command is not valid: detail. -/
theorem validate_command_sequence (id : PyVal) (command : String) :
    (∀ rest, validate_command id command (Msg.text "OK" :: rest) =
      ⟨[Msg.text COMMAND_VALIDATE_COMMAND, Msg.text (pyStrOf id), Msg.text command],
        .ok .unit, rest⟩) ∧
    (∀ err rest, validate_command id command (Msg.text "ERROR" :: Msg.text err :: rest) =
      ⟨[Msg.text COMMAND_VALIDATE_COMMAND, Msg.text (pyStrOf id), Msg.text command],
        .raised .invalidCommand ("command \x27" ++ command ++ "\x27 is not valid: " ++ err),
        rest⟩) :=
  ⟨fun rest => rfl, fun err rest => rfl⟩

/-- Claim C7: execute_bash_command serializes the two capture flags as
the literal strings True and False after the command text, then reads
the status code, then reads a stdout message exactly when the stdout
flag is true and a stderr message exactly when the stderr flag is
true. -/
theorem execute_bash_flag_serialization (command : String) (so se : Bool)
    (s o e : String) (rest : List Msg) :
    pyStrBool true = "True" ∧ pyStrBool false = "False" ∧
    execute_bash_command command so se
        (Msg.text s :: Msg.text o :: Msg.text e :: rest) =
      ⟨[Msg.text COMMAND_EXECUTE_BASH, Msg.text command,
        Msg.text (pyStrBool so), Msg.text (pyStrBool se)],
       .ok (.bash s (cond so (some o) none) (cond se (some (cond so e o)) none)),
       cond so (cond se rest (Msg.text e :: rest))
         (cond se (Msg.text e :: rest) (Msg.text o :: Msg.text e :: rest))⟩ := by
  refine ⟨rfl, rfl, ?_⟩
  cases so <;> cases se <;> rfl

/-- Claim C8 counterexample: with capture_stdout true and
capture_stderr false, only one message is read after the status code;
a third available message is left unread, refuting that exactly two
messages are read after the status code. -/
theorem execute_bash_read_count_counterexample :
    execute_bash_command "ls" true false
        [Msg.text "0", Msg.text "out", Msg.text "more"] =
      ⟨[Msg.text COMMAND_EXECUTE_BASH, Msg.text "ls", Msg.text "True", Msg.text "False"],
       .ok (.bash "0" (some "out") none), [Msg.text "more"]⟩ ∧
    [Msg.text "more"] ≠ ([] : List Msg) :=
  ⟨rfl, by decide⟩

/-- Claim C8 amended: with capture_stdout true and capture_stderr
false, exactly one text message, the stdout, is read after the status
code and none for stderr; with both flags false only the status code
is read. -/
theorem execute_bash_read_counts (command s o : String) (rest : List Msg) :
    execute_bash_command command true false (Msg.text s :: Msg.text o :: rest) =
      ⟨[Msg.text COMMAND_EXECUTE_BASH, Msg.text command, Msg.text "True", Msg.text "False"],
       .ok (.bash s (some o) none), rest⟩ ∧
    execute_bash_command command false false (Msg.text s :: Msg.text o :: rest) =
      ⟨[Msg.text COMMAND_EXECUTE_BASH, Msg.text command, Msg.text "False", Msg.text "False"],
       .ok (.bash s none none), Msg.text o :: rest⟩ :=
  ⟨rfl, rfl⟩

/-- Claim C9: for every command invocation that classifies the status
tag, receiving ERROR makes the dispatcher read exactly the one error
detail message before raising its typed exception, consuming exactly
the status tag and its payload and leaving the remainder of the stream
untouched for the next command. -/
theorem error_response_reads_detail_and_raises (d : String) (rest : List Msg) :
    (∀ body, create_instrument_as_json_string body
        (Msg.text "ERROR" :: Msg.text d :: rest) =
      ⟨[Msg.text COMMAND_CREATE_INSTRUMENT, Msg.text body], .raised .openLISA d, rest⟩) ∧
    (∀ id body, update_instrument_as_json_string id body
        (Msg.text "ERROR" :: Msg.text d :: rest) =
      ⟨[Msg.text COMMAND_UPDATE_INSTRUMENT, Msg.text (pyStrOf id), Msg.text body],
        .raised .openLISA d, rest⟩) ∧
    (∀ id, delete_instrument_as_json_string id (Msg.text "ERROR" :: Msg.text d :: rest) =
      ⟨[Msg.text COMMAND_DELETE_INSTRUMENT, Msg.text (pyStrOf id)],
        .raised .openLISA d, rest⟩) ∧
    (∀ id, get_instrument_as_json_string id (Msg.text "ERROR" :: Msg.text d :: rest) =
      ⟨[Msg.text COMMAND_GET_INSTRUMENT, Msg.text (pyStrOf id)],
        .raised .openLISA d, rest⟩) ∧
    (∀ id, get_instrument_commands_as_json_string id
        (Msg.text "ERROR" :: Msg.text d :: rest) =
      ⟨[Msg.text COMMAND_GET_INSTRUMENT_COMMANDS, Msg.text (pyStrOf id)],
        .raised .openLISA d, rest⟩) ∧
    (∀ id cmd, validate_command id cmd (Msg.text "ERROR" :: Msg.text d :: rest) =
      ⟨[Msg.text COMMAND_VALIDATE_COMMAND, Msg.text (pyStrOf id), Msg.text cmd],
        .raised .invalidCommand ("command \x27" ++ cmd ++ "\x27 is not valid: " ++ d),
        rest⟩) ∧
    (∀ id cmd, send_command_and_result_as_json_string id cmd
        (Msg.text "ERROR" :: Msg.text d :: rest) =
      ⟨[Msg.text COMMAND_SEND_COMMAND, Msg.text (pyStrOf id), Msg.text cmd],
        .raised .invalidCommand ("command \x27" ++ cmd ++ "\x27 for instrument " ++
          pyStrOf id ++ " is not valid: " ++ d), rest⟩) ∧
    (∀ fb name, send_file fb name (Msg.text "ERROR" :: Msg.text d :: rest) =
      ⟨[Msg.text COMMAND_SEND_FILE, Msg.text name, Msg.binary fb],
        .raised .invalidPath d, rest⟩) ∧
    (∀ name, get_file name (Msg.text "ERROR" :: Msg.text d :: rest) =
      ⟨[Msg.text COMMAND_GET_FILE, Msg.text name], .raised .openLISA d, rest⟩) :=
  ⟨fun body => rfl, fun id body => rfl, fun id => rfl, fun id => rfl, fun id => rfl,
   fun id cmd => rfl, fun id cmd => rfl, fun fb name => rfl, fun name => rfl⟩

/-- Claim C10: every instrument scoped operation converts the id with
str before sending, so a non-string id produces exactly the same run as
its string form; in particular the integer three behaves as the string
form of three. -/
theorem instrument_id_str_conversion (n : Int) :
    (∀ inc, get_instrument_as_json_string (PyVal.pyInt n) inc =
      get_instrument_as_json_string (PyVal.pyStr (toString n)) inc) ∧
    (∀ body inc, update_instrument_as_json_string (PyVal.pyInt n) body inc =
      update_instrument_as_json_string (PyVal.pyStr (toString n)) body inc) ∧
    (∀ inc, delete_instrument_as_json_string (PyVal.pyInt n) inc =
      delete_instrument_as_json_string (PyVal.pyStr (toString n)) inc) ∧
    (∀ inc, get_instrument_commands_as_json_string (PyVal.pyInt n) inc =
      get_instrument_commands_as_json_string (PyVal.pyStr (toString n)) inc) ∧
    (∀ cmd inc, validate_command (PyVal.pyInt n) cmd inc =
      validate_command (PyVal.pyStr (toString n)) cmd inc) ∧
    (∀ cmd inc, send_command_and_result_as_json_string (PyVal.pyInt n) cmd inc =
      send_command_and_result_as_json_string (PyVal.pyStr (toString n)) cmd inc) ∧
    (∀ cmd inc, send_command (PyVal.pyInt n) cmd inc =
      send_command (PyVal.pyStr (toString n)) cmd inc) ∧
    pyStrOf (PyVal.pyInt 3) = "3" :=
  ⟨fun inc => rfl, fun body inc => rfl, fun inc => rfl, fun inc => rfl,
   fun cmd inc => rfl, fun cmd inc => rfl, fun cmd inc => rfl, by decide⟩

end OpenLISA
